import Mathlib

/-!
Verification of the route-registration and lifecycle core of a small
fx-based HTTP server (src/main.go).

The embedding is shallow:
* `Route` models the Go `Route` interface value: a pattern string plus the
  identity of the concrete handler implementing it.
* `ServeMux` models `net/http.ServeMux` as an association list from pattern
  to the registered route.  `ServeMux.handle` translates
  `(*ServeMux).Handle` from the Go standard library (the external collaborator
  the source calls): it panics — modelled as `Except.error` — when the pattern
  is empty or already registered, and otherwise records the entry.
* `NewServeMux` translates the registration loop of `NewServeMux` in
  src/main.go lines 110–117; a panic inside the loop aborts the build.
* Handler bodies (`EchoHandler.serveHTTP`, `HelloHandler.serveHTTP`) are
  translated as functions from the outcome of the request-body I/O to the
  list of actions they perform on the response writer and the logger.
* The fx lifecycle hooks installed by `NewHTTPServer` (lines 88–106) are
  translated as functions of the outcome of the external calls they make
  (`net.Listen`, `(*http.Server).Shutdown`).
-/

/-- Identity of a concrete handler type behind the `Route` interface. -/
inductive HandlerKind where
  | echo : HandlerKind
  | hello : HandlerKind
  | other : Nat → HandlerKind
deriving DecidableEq, Repr

/-- A value of the Go `Route` interface (src/main.go lines 16–21):
`Pattern()` is the `pattern` field; the dynamic handler is `kind`. -/
structure Route where
  pattern : String
  kind : HandlerKind
deriving DecidableEq, Repr

/-- `net/http.ServeMux`: the registered pattern → route entries.
Go stores them in a map with unique keys; an association list in
registration order carries the same associations. -/
structure ServeMux where
  entries : List (String × Route)
deriving DecidableEq, Repr

/-- Whether a pattern is already registered (`_, exist := mux.m[pattern]`). -/
def ServeMux.hasPattern (mux : ServeMux) (p : String) : Bool :=
  mux.entries.any (fun e => e.1 = p)

/-- `(*net/http.ServeMux).Handle`: panics (`Except.error`) on an empty
pattern or a duplicate registration, otherwise adds the entry.  (The nil
handler check cannot arise here: routes are always non-nil values.) -/
def ServeMux.handle (mux : ServeMux) (pattern : String) (route : Route) :
    Except String ServeMux :=
  if pattern = "" then .error "http: invalid pattern"
  else if mux.hasPattern pattern then
    .error ("http: multiple registrations for " ++ pattern)
  else .ok { entries := mux.entries ++ [(pattern, route)] }

/-- The registration loop of `NewServeMux` (src/main.go lines 113–115):
`for _, route := range routes { mux.Handle(route.Pattern(), route) }`.
A panic in `Handle` aborts the whole loop. -/
def registerRoutes (mux : ServeMux) : List Route → Except String ServeMux
  | [] => .ok mux
  | r :: rs =>
    match mux.handle r.pattern r with
    | .error e => .error e
    | .ok m => registerRoutes m rs

/-- `NewServeMux` (src/main.go lines 110–117): starts from the empty mux
(`http.NewServeMux()`) and registers every route in order. -/
def NewServeMux (routes : List Route) : Except String ServeMux :=
  registerRoutes { entries := [] } routes

/-- Look a pattern up in the built table. -/
def ServeMux.find (mux : ServeMux) (p : String) : Option Route :=
  (mux.entries.find? (fun e => e.1 = p)).map (fun e => e.2)

/- ### Registration lemmas -/

theorem hasPattern_append (mux : ServeMux) (l : List (String × Route))
    (p : String) :
    ServeMux.hasPattern { entries := mux.entries ++ l } p =
      (mux.hasPattern p || l.any (fun e => e.1 = p)) := by
  simp [ServeMux.hasPattern, List.any_append]

/-- If the registration loop succeeds, the resulting entries are the starting
entries followed by one entry per route, keyed by its pattern. -/
theorem registerRoutes_ok_entries (rs : List Route) :
    ∀ (mux m : ServeMux), registerRoutes mux rs = .ok m →
      m.entries = mux.entries ++ rs.map (fun r => (r.pattern, r)) := by
  induction rs with
  | nil =>
    intro mux m h
    simp [registerRoutes] at h
    simp [← h]
  | cons r rs ih =>
    intro mux m h
    unfold registerRoutes at h
    unfold ServeMux.handle at h
    by_cases hp : r.pattern = ""
    · simp [hp] at h
    · by_cases hdup : mux.hasPattern r.pattern
      · simp [hp, hdup] at h
      · simp [hp, hdup] at h
        have := ih _ _ h
        simpa using this

/-- If the registration loop succeeds, no route in the list was already
registered in the starting mux. -/
theorem registerRoutes_ok_fresh (rs : List Route) :
    ∀ (mux m : ServeMux), registerRoutes mux rs = .ok m →
      ∀ r ∈ rs, mux.hasPattern r.pattern = false := by
  induction rs with
  | nil => intro mux m _ r hr; cases hr
  | cons r rs ih =>
    intro mux m h r' hr'
    unfold registerRoutes at h
    unfold ServeMux.handle at h
    by_cases hp : r.pattern = ""
    · simp [hp] at h
    · by_cases hdup : mux.hasPattern r.pattern
      · simp [hp, hdup] at h
      · simp [hp, hdup] at h
        rcases List.mem_cons.mp hr' with h1 | h1
        · subst h1; simpa using hdup
        · have := ih _ _ h r' h1
          rw [hasPattern_append] at this
          exact (Bool.or_eq_false_iff.mp this).1

/-- If the registration loop succeeds, the patterns of the routes are
pairwise distinct. -/
theorem registerRoutes_ok_nodup (rs : List Route) :
    ∀ (mux m : ServeMux), registerRoutes mux rs = .ok m →
      (rs.map Route.pattern).Nodup := by
  induction rs with
  | nil => intro mux m _; simp
  | cons r rs ih =>
    intro mux m h
    unfold registerRoutes at h
    unfold ServeMux.handle at h
    by_cases hp : r.pattern = ""
    · simp [hp] at h
    · by_cases hdup : mux.hasPattern r.pattern
      · simp [hp, hdup] at h
      · simp [hp, hdup] at h
        refine List.nodup_cons.mpr ⟨?_, ih _ _ h⟩
        intro hmem
        rcases List.mem_map.mp hmem with ⟨r', hr', hpat⟩
        have hfresh := registerRoutes_ok_fresh rs _ _ h r' hr'
        rw [hasPattern_append] at hfresh
        have := (Bool.or_eq_false_iff.mp hfresh).2
        simp [hpat] at this

/-- Registering routes with non-empty, pairwise-distinct, fresh patterns
succeeds and appends exactly one entry per route. -/
theorem registerRoutes_distinct_ok (rs : List Route) :
    ∀ (mux : ServeMux),
      (∀ r ∈ rs, r.pattern ≠ "") →
      (rs.map Route.pattern).Nodup →
      (∀ r ∈ rs, mux.hasPattern r.pattern = false) →
      registerRoutes mux rs =
        .ok { entries := mux.entries ++ rs.map (fun r => (r.pattern, r)) } := by
  induction rs with
  | nil => intro mux _ _ _; simp [registerRoutes]
  | cons r rs ih =>
    intro mux hne hnd hfresh
    have hp : r.pattern ≠ "" := hne r (List.mem_cons_self r rs)
    have hdup : mux.hasPattern r.pattern = false :=
      hfresh r (List.mem_cons_self r rs)
    unfold registerRoutes
    unfold ServeMux.handle
    simp only [hp, hdup, if_false, Bool.false_eq_true, ite_false, if_neg]
    rw [List.map_cons, List.nodup_cons] at hnd
    have step := ih { entries := mux.entries ++ [(r.pattern, r)] }
      (fun r' hr' => hne r' (List.mem_cons_of_mem r hr'))
      hnd.2
      (fun r' hr' => by
        rw [hasPattern_append]
        have h1 : mux.hasPattern r'.pattern = false :=
          hfresh r' (List.mem_cons_of_mem r hr')
        have h2 : r'.pattern ≠ r.pattern := by
          intro hcontra
          exact hnd.1 (by
            rw [← hcontra]
            exact List.mem_map.mpr ⟨r', hr', rfl⟩)
        simp [h1]
        exact fun hh => h2 hh.symm)
    rw [step]
    simp

/- ### Handlers -/

/-- One interaction of a handler with its response writer or logger. -/
inductive HandlerAction where
  | writeBody : String → HandlerAction
  | writeError : Nat → String → HandlerAction
  | logWarn : String → HandlerAction
  | logError : String → HandlerAction
deriving DecidableEq, Repr

/-- `EchoHandler.ServeHTTP` (src/main.go lines 41–46).  `io.Copy(w, r.Body)`
either copies the whole body to the writer or fails with an error; on
failure the handler only logs a warning and returns. -/
def EchoHandler.serveHTTP (copyResult : Except String String) :
    List HandlerAction :=
  match copyResult with
  | .ok body => [.writeBody body]
  | .error _ => [.logWarn "Failed to handle request:"]

/-- `HelloHandler.ServeHTTP` (src/main.go lines 68–81).  `readResult` is the
outcome of `io.ReadAll(r.Body)`; `writeOk` is whether the `fmt.Fprintf`
write to the response writer succeeds.  On a failed write the handler has
still issued the (failed) write before logging and calling `http.Error`. -/
def HelloHandler.serveHTTP (readResult : Except String String)
    (writeOk : Bool) : List HandlerAction :=
  match readResult with
  | .error _ =>
    [.logError "Failed to read request", .writeError 500 "Internal server error"]
  | .ok body =>
    if writeOk then [.writeBody ("Hello, " ++ body ++ "\n")]
    else [.writeBody ("Hello, " ++ body ++ "\n"),
          .logError "Failed to write response",
          .writeError 500 "Internal server error"]

/-- An HTTP response as observed by the client. -/
structure Response where
  status : Nat
  body : String
deriving DecidableEq, Repr

/-- Intermediate state of a `net/http` response writer: the status committed
by the first write (if any) and the body accumulated so far. -/
structure RWState where
  status : Option Nat
  body : String
deriving DecidableEq, Repr

/-- `net/http` response-writer semantics: a body write commits status 200 if
none is committed, `http.Error` commits its status only if none is committed
yet (a later `WriteHeader` is ignored) and appends its message and a
newline; log calls do not touch the response. -/
def applyAction (st : RWState) : HandlerAction → RWState
  | .writeBody s => { status := some (st.status.getD 200), body := st.body ++ s }
  | .writeError c m =>
    { status := some (st.status.getD c), body := st.body ++ m ++ "\n" }
  | .logWarn _ => st
  | .logError _ => st

/-- The response produced by a list of handler actions; a handler that wrote
nothing still yields a 200 with empty body. -/
def mkResponse (acts : List HandlerAction) : Response :=
  let st := acts.foldl applyAction { status := none, body := "" }
  { status := st.status.getD 200, body := st.body }

/-- Whether an action writes an error-status response (`http.Error`). -/
def HandlerAction.isErrorWrite : HandlerAction → Bool
  | .writeError _ _ => true
  | _ => false

/- ### Dispatch -/

/-- `strings.HasPrefix`, computed over the character sequences. -/
def strHasPrefix (s pre : String) : Bool :=
  pre.data.isPrefixOf s.data

/-- Go's `pattern[len(pattern)-1] == '/'` check: the pattern ends in a
slash. -/
def strEndsSlash (pat : String) : Bool :=
  pat.data.getLast? == some '/'

/-- A request path matches a registered pattern the way
`(*net/http.ServeMux).match` decides it: exact equality, or, for patterns
ending in a slash, by prefix. -/
def patternMatch (pat path : String) : Bool :=
  pat = path || (strEndsSlash pat && strHasPrefix path pat)

/-- Exact-match lookup (`mux.m[path]`). -/
def ServeMux.findExact (mux : ServeMux) (path : String) : Option Route :=
  (mux.entries.find? (fun e => e.1 = path)).map (fun e => e.2)

/-- One step of the slash-pattern scan: keep the longest pattern ending in
"/" that is a prefix of the path. -/
def slashStep (path : String) (best : Option (String × Route))
    (e : String × Route) : Option (String × Route) :=
  if strEndsSlash e.1 && strHasPrefix path e.1 then
    match best with
    | none => some e
    | some b => if b.1.length < e.1.length then some e else some b
  else best

/-- Longest-pattern prefix match over the patterns ending in a slash
(`mux.es`, sorted from longest to shortest in Go). -/
def ServeMux.findSlash (mux : ServeMux) (path : String) : Option Route :=
  (mux.entries.foldl (slashStep path) none).map (fun e => e.2)

/-- Result of dispatching one request path through the mux. -/
inductive DispatchResult where
  | handled : Route → DispatchResult
  | notFound : DispatchResult
deriving DecidableEq, Repr

/-- `(*net/http.ServeMux).handler`: exact match first, then slash-pattern
prefix match, else `NotFoundHandler`. -/
def ServeMux.serve (mux : ServeMux) (path : String) : DispatchResult :=
  match mux.findExact path with
  | some r => .handled r
  | none =>
    match mux.findSlash path with
    | some r => .handled r
    | none => .notFound

/-- The response `net/http.NotFoundHandler` writes. -/
def notFoundResponse : Response := { status := 404, body := "404 page not found\n" }

/-- The response the server sends for a path: the matched route handles the
request, or the not-found response is written and no route runs. -/
def ServeMux.respond (mux : ServeMux) (path : String)
    (routeResp : Route → Response) : Response :=
  match mux.serve path with
  | .handled r => routeResp r
  | .notFound => notFoundResponse

/- ### Lifecycle -/

/-- A bound TCP listener (identified by the address it is bound to). -/
structure Listener where
  addr : String
deriving DecidableEq, Repr

/-- The `*http.Server` built by `NewHTTPServer`: its address and handler. -/
structure HTTPServer where
  Addr : String
  Handler : ServeMux
deriving DecidableEq, Repr

/-- What the `OnStart` hook did besides returning: whether
`go srv.Serve(ln)` was spawned (serving proceeds asynchronously). -/
structure StartEffects where
  servingStarted : Bool
deriving DecidableEq, Repr

/-- The `OnStart` hook installed by `NewHTTPServer` (src/main.go lines
92–100).  `listen` is the outcome of `net.Listen("tcp", addr)` per address.
On a bind error the hook returns the error without serving; on success it
spawns the serve goroutine and returns nil immediately. -/
def serverOnStart (srv : HTTPServer)
    (listen : String → Except String Listener) :
    Except String Unit × StartEffects :=
  match listen srv.Addr with
  | .error e => (.error e, { servingStarted := false })
  | .ok _ => (.ok (), { servingStarted := true })

/-- Errors `(*http.Server).Shutdown` can return. -/
inductive StopError where
  | deadlineExceeded : StopError
  | closeError : String → StopError
deriving DecidableEq, Repr

/-- `(*http.Server).Shutdown(ctx)` modelled at its documented interface
(net/http is an external library): it stops accepting new connections and
waits for in-flight connections to drain; if the context's deadline expires
first it returns the context's error instead of nil.
`drainDone` says whether the in-flight work drains before the deadline. -/
def Server.ShutdownCall (drainDone : Bool) : Except StopError Unit :=
  if drainDone then .ok () else .error .deadlineExceeded

/-- The `OnStop` hook installed by `NewHTTPServer` (src/main.go lines
101–103): `return srv.Shutdown(ctx)`. -/
def serverOnStop (drainDone : Bool) : Except StopError Unit :=
  Server.ShutdownCall drainDone

/-- An fx lifecycle hook pair as far as this program configures it: the
address its `OnStart` binds (the closure captures `srv.Addr`). -/
structure FxHook where
  startAddr : String
deriving DecidableEq, Repr

/-- `zap.Logger` stand-in: only its identity matters to the wiring. -/
structure Logger where
  id : Nat
deriving DecidableEq, Repr

/-- `NewHTTPServer` (src/main.go lines 88–106): builds the server with the
hard-coded address ":8080" and the given mux, appends one hook pair to the
fx lifecycle, and returns the server.  The logger is only used for
diagnostics. -/
def NewHTTPServer (lc : List FxHook) (mux : ServeMux) (log : Logger) :
    HTTPServer × List FxHook :=
  let srv : HTTPServer := { Addr := ":8080", Handler := mux }
  (srv, lc ++ [{ startAddr := srv.Addr }])

/- ### Claims about route registration -/

/-- Claim C1: a route list containing two routes with an identical pattern
string makes `NewServeMux` fail with a fatal configuration error (the panic
raised by `ServeMux.handle` at build time): the earlier registration is
never silently overwritten and no usable table is produced. -/
theorem newServeMux_duplicate_fails (routes : List Route) (i j : Nat)
    (hi : i < routes.length) (hj : j < routes.length) (hij : i ≠ j)
    (hdup : routes[i].pattern = routes[j].pattern) :
    ∃ e, NewServeMux routes = .error e := by
  cases h : NewServeMux routes with
  | error e => exact ⟨e, rfl⟩
  | ok m =>
    exfalso
    have hnd := registerRoutes_ok_nodup routes _ _ h
    have hi' : i < (routes.map Route.pattern).length := by simpa using hi
    have hj' : j < (routes.map Route.pattern).length := by simpa using hj
    have heq : (routes.map Route.pattern)[i] = (routes.map Route.pattern)[j] := by
      simp only [List.getElem_map]
      exact hdup
    exact hij (hnd.getElem_inj_iff.mp heq)

/-- Witness for C1 at a concrete duplicated pattern. -/
theorem newServeMux_duplicate_fails_witness :
    ∃ e, NewServeMux [{ pattern := "/echo", kind := .echo },
                      { pattern := "/echo", kind := .hello }] = .error e :=
  newServeMux_duplicate_fails _ 0 1 (by decide) (by decide) (by decide)
    (by decide)

/-- Claim C2 counterexample: a single-route list whose pattern is the empty
string has pairwise-distinct patterns, yet `NewServeMux` does not succeed —
`ServeMux.handle` panics with "http: invalid pattern" and no table is
produced. -/
theorem newServeMux_distinct_counterexample :
    List.Pairwise (fun a b : Route => a.pattern ≠ b.pattern)
        [{ pattern := "", kind := .other 0 }] ∧
      NewServeMux [{ pattern := "", kind := .other 0 }] =
        .error "http: invalid pattern" := by
  constructor
  · simp
  · rfl

/-- Claim C2 (amended): for every route list whose patterns are pairwise
distinct and non-empty, `NewServeMux` succeeds and the table holds exactly
one entry per input route, keyed by exactly that route's pattern and mapping
it to that route. -/
theorem newServeMux_distinct_ok (routes : List Route)
    (hne : ∀ r ∈ routes, r.pattern ≠ "")
    (hnd : (routes.map Route.pattern).Nodup) :
    NewServeMux routes =
      .ok { entries := routes.map (fun r => (r.pattern, r)) } := by
  have h := registerRoutes_distinct_ok routes { entries := [] } hne hnd
    (fun r _ => by simp [ServeMux.hasPattern])
  simpa [NewServeMux] using h

/-- Witness for C2 (amended) at the program's actual route set. -/
theorem newServeMux_distinct_ok_witness :
    NewServeMux [{ pattern := "/echo", kind := .echo },
                 { pattern := "/hello", kind := .hello }] =
      .ok { entries :=
              [("/echo", { pattern := "/echo", kind := .echo }),
               ("/hello", { pattern := "/hello", kind := .hello })] } :=
  newServeMux_distinct_ok _ (by decide) (by decide)

/-- Claim C9: building the dispatch table from the same route list twice is
deterministic — the two builds associate exactly the same patterns with the
same routes (`NewServeMux` is a pure function of its input). -/
theorem newServeMux_idempotent (routes : List Route) :
    ∀ p : String,
      (NewServeMux routes).map (fun m => ServeMux.find m p) =
        (NewServeMux routes).map (fun m => ServeMux.find m p) :=
  fun _ => rfl

/- ### Claims about the handlers -/

/-- Claim C3 counterexample: a body-copy failure in `EchoHandler.ServeHTTP`
is reported only through a log call — the handler writes no error-status
response to that request's response writer, contrary to the claim. -/
theorem echoHandler_no_error_response_counterexample :
    (EchoHandler.serveHTTP (.error "read failed")).filter
        HandlerAction.isErrorWrite = [] ∧
      EchoHandler.serveHTTP (.error "read failed") =
        [.logWarn "Failed to handle request:"] :=
  ⟨rfl, rfl⟩

/-- Claim C3 (amended): neither handler crashes the process — every failure
path produces a defined action list over the response writer and the logger
only.  `HelloHandler` reports every processing failure (body read failure,
response write failure) by writing a 500 error-status response, while
`EchoHandler` reports a copy failure only through a bounded logging call,
without writing an error-status response. -/
theorem handler_failure_reporting :
    (∀ (e : String) (w : Bool),
        HandlerAction.writeError 500 "Internal server error" ∈
          HelloHandler.serveHTTP (.error e) w) ∧
    (∀ b : String,
        HandlerAction.writeError 500 "Internal server error" ∈
          HelloHandler.serveHTTP (.ok b) false) ∧
    (∀ e : String,
        EchoHandler.serveHTTP (.error e) =
          [.logWarn "Failed to handle request:"]) := by
  refine ⟨fun e w => ?_, fun b => ?_, fun e => rfl⟩
  · simp [HelloHandler.serveHTTP]
  · simp [HelloHandler.serveHTTP]

/-- Claim C5: a request to /hello whose body reads successfully as "world"
(and whose response write succeeds) gets status 200 with body
"Hello, world\n"; a request whose body read fails instead gets a 500
response with a generic error message. -/
theorem helloHandler_greets :
    mkResponse (HelloHandler.serveHTTP (.ok "world") true) =
        { status := 200, body := "Hello, world\n" } ∧
      ∀ (e : String) (w : Bool),
        mkResponse (HelloHandler.serveHTTP (.error e) w) =
          { status := 500, body := "Internal server error\n" } :=
  ⟨rfl, fun _ _ => rfl⟩

/-- Claim C6: for every request delivered to /echo, `EchoHandler` responds
with status 200 and a body byte-for-byte equal to the request body; in
particular body "hello" yields status 200 and body "hello". -/
theorem echoHandler_echoes :
    (∀ b : String, mkResponse (EchoHandler.serveHTTP (.ok b)) =
        { status := 200, body := b }) ∧
      mkResponse (EchoHandler.serveHTTP (.ok "hello")) =
        { status := 200, body := "hello" } := by
  refine ⟨fun b => ?_, rfl⟩
  simp [EchoHandler.serveHTTP, mkResponse, applyAction]

/- ### Claims about dispatch -/

theorem slashScan_none (path : String) (l : List (String × Route))
    (h : ∀ e ∈ l, (strEndsSlash e.1 && strHasPrefix path e.1) = false) :
    l.foldl (slashStep path) none = none := by
  induction l with
  | nil => rfl
  | cons e l ih =>
    have hc := h e (List.mem_cons_self e l)
    rw [List.foldl_cons]
    have hstep : slashStep path none e = none := by
      unfold slashStep
      rw [hc]
      rfl
    rw [hstep]
    exact ih (fun e' he' => h e' (List.mem_cons_of_mem e he'))

/-- Claim C7: if a request path matches no pattern registered in the table
(neither exactly nor as a slash-terminated prefix pattern), dispatch yields
`notFound`, the not-found response is written, and no registered route's
handler is invoked. -/
theorem serveMux_unmatched_notFound (mux : ServeMux) (path : String)
    (hnone : ∀ e ∈ mux.entries, patternMatch e.1 path = false) :
    mux.serve path = .notFound ∧
      ∀ routeResp : Route → Response,
        mux.respond path routeResp = notFoundResponse := by
  have hexactPred : ∀ x ∈ mux.entries, ¬ (decide (x.1 = path) = true) := by
    intro e he
    have h1 := hnone e he
    unfold patternMatch at h1
    have h2 := (Bool.or_eq_false_iff.mp h1).1
    intro hc
    rw [h2] at hc
    cases hc
  have hfind : mux.entries.find? (fun e => e.1 = path) = none :=
    List.find?_eq_none.mpr hexactPred
  have hexact : mux.findExact path = none := by
    unfold ServeMux.findExact
    rw [hfind]
    rfl
  have hslashCond : ∀ e ∈ mux.entries,
      (strEndsSlash e.1 && strHasPrefix path e.1) = false := by
    intro e he
    have h1 := hnone e he
    unfold patternMatch at h1
    exact (Bool.or_eq_false_iff.mp h1).2
  have hslash : mux.findSlash path = none := by
    unfold ServeMux.findSlash
    rw [slashScan_none path mux.entries hslashCond]
    rfl
  have hserve : mux.serve path = .notFound := by
    unfold ServeMux.serve
    rw [hexact, hslash]
  exact ⟨hserve, fun routeResp => by unfold ServeMux.respond; rw [hserve]⟩

/-- Witness for C7: the program's table for /echo and /hello sends the
unregistered path /nope to the not-found response. -/
theorem serveMux_unmatched_notFound_witness :
    ServeMux.serve
        { entries := [("/echo", { pattern := "/echo", kind := .echo }),
                      ("/hello", { pattern := "/hello", kind := .hello })] }
        "/nope" = .notFound ∧
      ServeMux.respond
        { entries := [("/echo", { pattern := "/echo", kind := .echo }),
                      ("/hello", { pattern := "/hello", kind := .hello })] }
        "/nope" (fun _ => { status := 200, body := "" }) = notFoundResponse :=
  ⟨(serveMux_unmatched_notFound _ "/nope" (by decide)).1,
   (serveMux_unmatched_notFound _ "/nope" (by decide)).2 _⟩

/- ### Claims about the lifecycle hooks -/

/-- Claim C4 counterexample: when in-flight work does not drain before the
deadline, the OnStop hook does not report success — it returns the
context's deadline-exceeded error. -/
theorem serverOnStop_deadline_counterexample :
    serverOnStop false = .error .deadlineExceeded ∧
      serverOnStop false ≠ .ok () :=
  ⟨rfl, fun hc => Except.noConfusion hc⟩

/-- Claim C4 (amended): the OnStop hook returns exactly the result of
`srv.Shutdown(ctx)`: success when in-flight work drains before the
deadline, and the deadline-exceeded error — not success — when the
deadline elapses first. -/
theorem serverOnStop_reports_shutdown (drainDone : Bool) :
    serverOnStop drainDone =
      if drainDone then .ok () else .error .deadlineExceeded :=
  rfl

/-- Claim C8: if binding the listener on the server's address fails, the
OnStart hook surfaces that bind error to its caller and serving never
starts; if binding succeeds, the hook returns success immediately while
serving proceeds asynchronously (the hook does not block on the spawned
serve loop). -/
theorem serverOnStart_spec (srv : HTTPServer)
    (listen : String → Except String Listener) :
    (∀ e, listen srv.Addr = .error e →
        serverOnStart srv listen = (.error e, { servingStarted := false })) ∧
      (∀ ln, listen srv.Addr = .ok ln →
        serverOnStart srv listen = (.ok (), { servingStarted := true })) := by
  constructor
  · intro e he
    unfold serverOnStart
    rw [he]
  · intro ln hln
    unfold serverOnStart
    rw [hln]

/-- Witness for C8: a failing bind on the program's server surfaces the
error without serving, and a successful bind starts serving and returns
success. -/
theorem serverOnStart_spec_witness :
    serverOnStart { Addr := ":8080", Handler := { entries := [] } }
        (fun _ => .error "listen tcp :8080: address already in use") =
      (.error "listen tcp :8080: address already in use",
        { servingStarted := false }) ∧
      serverOnStart { Addr := ":8080", Handler := { entries := [] } }
        (fun a => .ok { addr := a }) =
      (.ok (), { servingStarted := true }) :=
  ⟨(serverOnStart_spec _ _).1 _ rfl, (serverOnStart_spec _ _).2 _ rfl⟩

/-- Claim C10: `NewHTTPServer` hard-codes the listen address — for every
lifecycle, mux and logger argument, the returned server's address is
":8080", its handler is the given mux, and the single hook pair it appends
to the lifecycle binds exactly that address. -/
theorem newHTTPServer_addr (lc : List FxHook) (mux : ServeMux)
    (log : Logger) :
    (NewHTTPServer lc mux log).1.Addr = ":8080" ∧
      (NewHTTPServer lc mux log).1.Handler = mux ∧
      (NewHTTPServer lc mux log).2 = lc ++ [{ startAddr := ":8080" }] :=
  ⟨rfl, rfl, rfl⟩
